import Mathlib

/- Verification of the tradespace designer core (TradespaceDesigner, UAVTradespacer,
uav_model) against its natural language specification. The Python source is
translated into Lean over exact rational arithmetic: pure numeric expressions
become functions on the rationals, dataframe columns become lists, the
performance_items dictionary becomes an association list, and raised exceptions
become the error case of Except. Transcendental quantities that the claims do
not inspect (the propeller thrust and torque coefficients, pi, the numpy square
root) are passed as explicit parameters of the translated functions. -/

/-- One attribute of the multi attribute utility model, as stored in the
performance_items dictionary of TradespaceDesigner (src/tradespace.py lines
50 to 56): bounds, units and weight. -/
structure PerfItem where
  min_value : ℚ
  max_value : ℚ
  units : String
  weight : ℚ
deriving DecidableEq, Repr

/-- Dictionary assignment performance_items[name] = item on an association
list: a present key is overwritten in place, a new key is appended, matching
Python dict update order. -/
def setItem : List (String × PerfItem) → String → PerfItem → List (String × PerfItem)
  | [], name, item => [(name, item)]
  | (k, v) :: rest, name, item =>
      if k = name then (name, item) :: rest else (k, v) :: setItem rest name item

/-- The weight previously stored under a key, zero when the key is absent;
companion of setItem for bookkeeping the weight sum. -/
def oldWeight : List (String × PerfItem) → String → ℚ
  | [], _ => 0
  | (k, v) :: rest, name => if k = name then v.weight else oldWeight rest name

/-- Sum of the registered weights, the quantity computed on src/tradespace.py
line 45. -/
def sumWeights (items : List (String × PerfItem)) : ℚ :=
  (items.map (fun p => p.2.weight)).sum

/-- TradespaceDesigner.add_performance_variable (src/tradespace.py lines 25 to
57). The duplicate name branch only prints a warning. The three raise
statements become errors; the source mutates performance_items only in the
final assignment, which is never reached on a raise, so an error leaves the
registry unchanged. Note that the bounds check rejects only a max_value
strictly less than min_value, so equal bounds are accepted. -/
def add_performance_variable (items : List (String × PerfItem)) (name : String)
    (min_value max_value : ℚ) (units : String) (weight : ℚ) :
    Except String (List (String × PerfItem)) :=
  if max_value < min_value then
    Except.error ("max value is less than the min value")
  else if weight < 0 ∨ weight > 1 then
    Except.error ("weight is not between 0 and 1")
  else if sumWeights items + weight > 1 then
    Except.error ("weight is too high")
  else
    Except.ok (setItem items name
      { min_value := min_value, max_value := max_value, units := units, weight := weight })

/-- The SAU value produced for one row by one attribute pass of
TradespaceDesigner.calculate_sau (src/tradespace.py lines 211 to 237): raw
values above max_value are clipped to 1, values below min_value are clipped to
0, and values inside the bounds get the linear normalization. In the
degenerate case min_value = max_value the linear branch divides by zero, which
is 0 over the rationals; in the source the same branch is the float division
0/0, giving NaN. Both results differ from the boundary value 1 that the
specification requires at max_value. -/
def sauValue (item : PerfItem) (v : ℚ) : ℚ :=
  if v > item.max_value then 1
  else if v < item.min_value then 0
  else (v - item.min_value) / (item.max_value - item.min_value)

/-- One attribute iteration of TradespaceDesigner.calculate_sau applied to the
raw column of that attribute: with clipping disabled on a side, any value
beyond that bound raises; otherwise every row receives sauValue. The source
compares the column maximum and minimum against the bounds, which for a column
is the existence test used here. -/
def calculate_sau_column (clip_max clip_min : Bool) (item : PerfItem) (col : List ℚ) :
    Except String (List ℚ) :=
  if (∃ v ∈ col, item.max_value < v) ∧ clip_max = false then
    Except.error ("max value in the tradespace exceeds the attribute max value")
  else if (∃ v ∈ col, v < item.min_value) ∧ clip_min = false then
    Except.error ("min value in the tradespace is below the attribute min value")
  else
    Except.ok (col.map (sauValue item))

/-- One loop iteration of TradespaceDesigner.calculate_mau (src/tradespace.py
lines 239 to 249) restricted to a single row: with the restrictive policy a
zero SAU for the current attribute resets the running MAU to zero, after which
the weighted term of the current attribute is added. The pair carries the
attribute weight and the SAU of the row for that attribute. -/
def mau_step (restrictive : Bool) (mau : ℚ) (ws : ℚ × ℚ) : ℚ :=
  (if restrictive = true ∧ ws.2 = 0 then 0 else mau) + ws.1 * ws.2

/-- TradespaceDesigner.calculate_mau for one row of the table: the attributes
are visited in registration order (Python dict iteration order), starting from
a MAU of zero. -/
def calculate_mau (restrictive : Bool) (row : List (ℚ × ℚ)) : ℚ :=
  row.foldl (mau_step restrictive) 0

/-- One row of the tradespace table as seen by detect_pareto: the price
column, the mau column, and the stored pareto flag, which is missing (none)
until the loop writes it. -/
structure TRow where
  price : ℚ
  mau : ℚ
  pareto : Option Bool
deriving DecidableEq, Repr

/-- TradespaceDesigner.detect_pareto (src/tradespace.py lines 278 to 299) with
the default axes price and mau. The dominance test reads only the price and
mau columns, which the loop never writes, so the pass is a map over the rows.
When a row has mau equal to zero the source assigns False to the row object
produced by iterrows, which is a copy, and continues before the dataframe
write on line 298; the stored flag of such a row therefore keeps its previous
value, modelled by leaving the Option untouched. -/
def detect_pareto (rows : List TRow) : List TRow :=
  rows.map (fun p =>
    if p.mau = 0 then p
    else { p with pareto := some (! rows.any (fun q => decide (q.price ≤ p.price ∧ p.mau < q.mau))) })

/-- The perturbation coefficients of the sensitivity sweep: the numpy array
with entries 1 - range_percent, 1.0 and 1 + range_percent for range_percent =
0.5 (src/uav_tradespace.py lines 265 and 272). -/
def perturb_coeffs : List ℚ := [1 - 1/2, 1, 1 + 1/2]

/-- itertools.product(perturb_coeffs, repeat = n) in lexicographic order, the
first coordinate varying slowest (src/uav_tradespace.py line 272). -/
def coeff_combinations : Nat → List (List ℚ)
  | 0 => [[]]
  | n + 1 => perturb_coeffs.flatMap (fun c => (coeff_combinations n).map (fun t => c :: t))

/-- Elementwise product of one coefficient row with the baseline weights, one
row of np.multiply(coeff_combinations, weights_list) on src/uav_tradespace.py
line 274. -/
def apply_coeffs (cs ws : List ℚ) : List ℚ :=
  List.zipWith (fun c w => c * w) cs ws

/-- Division of one coefficient row by its own sum, one row of the
renormalization on src/uav_tradespace.py line 277. -/
def normalize_row (xs : List ℚ) : List ℚ :=
  xs.map (fun x => x / xs.sum)

/-- Net effect of the sensitivity sweep of UAVTradespacer.generate_tradespace
on the stored attribute weights (src/uav_tradespace.py lines 253 to 339).
Iteration i of the loop overwrites every attribute weight with row i of the
normalized coefficient matrix, built once from the baseline weights. The
restore on line 321 copies original_performance_items, but that dict was
itself created by the shallow dict copy on line 259 and holds the same inner
attribute dicts that the loop mutated in place; the restore therefore keeps
the values written by the last iteration, and the weights after the sweep are
the last normalized coefficient row. -/
def sweep_final_weights (ws : List ℚ) : List ℚ :=
  (coeff_combinations ws.length).foldl (fun _ cs => normalize_row (apply_coeffs cs ws)) ws

/-- Whether an Except value is the error case; true corresponds to a Python
call that raised. -/
def isErr {α : Type} (r : Except String α) : Bool :=
  match r with
  | Except.error _ => true
  | Except.ok _ => false

/-- Gravitational acceleration 9.80665 as an exact rational (src/uav.py line
10 and src/uav_model.py line 532). -/
def gravQ : ℚ := 980665 / 100000

/-- motor_voltage of src/uav_model.py lines 132 to 146, with the constant 9.55
written exactly. -/
def motor_voltage (Kv0 Um0 Im0 Rm M N : ℚ) : ℚ :=
  Rm * ((M * Kv0 * Um0) / ((955 / 100) * (Um0 - Im0 * Rm)) + Im0) +
    ((Um0 - Im0 * Rm) / (Kv0 * Um0)) * N

/-- motor_current of src/uav_model.py lines 149 to 162. -/
def motor_current (Kv0 Um0 Im0 Rm M : ℚ) : ℚ :=
  (M * Kv0 * Um0) / ((955 / 100) * (Um0 - Im0 * Rm)) + Im0

/-- duty_cycle of src/uav_model.py lines 167 to 194 with limit = True for a
scalar: the ratio is computed and then clamped into the unit interval by the
two sequential if statements. -/
def duty_cycle_limited (Re Um Im Ub : ℚ) : ℚ :=
  let sigma := (Um + Im * Re) / Ub
  if sigma > 1 then 1 else if sigma < 0 then 0 else sigma

/-- esc_voltage of src/uav_model.py lines 197 to 208. -/
def esc_voltage (Ub Ib Rb : ℚ) : ℚ := Ub - Ib * Rb

/-- esc_current of src/uav_model.py lines 211 to 220. -/
def esc_current (d Im : ℚ) : ℚ := d * Im

/-- battery_current of src/uav_model.py lines 225 to 235. -/
def battery_current (num_motors Ie Icontrol : ℚ) : ℚ := num_motors * Ie + Icontrol

/-- battery_endurance of src/uav_model.py lines 238 to 248. -/
def battery_endurance (Ib Cb Cmin : ℚ) : ℚ := (60 / 1000) * (Cb - Cmin) / Ib

/-- system_efficiency of src/uav_model.py lines 253 to 265; the parameter piv
stands for the transcendental constant pi. -/
def system_efficiency (piv num_motors M N Ub Ib : ℚ) : ℚ :=
  (2 * piv / 60) * (num_motors * M * N) / (Ub * Ib)

/-- propeller_thrust of src/uav_model.py lines 80 to 94; the parameter Ct
stands for the value of thrust_coefficient(Dp, Hp, Bp), a transcendental
expression in arctan2 and pi that the claims never inspect. -/
def propeller_thrust (Ct pho Dp N : ℚ) : ℚ := pho * Dp ^ 4 * Ct * (N / 60) ^ 2

/-- propeller_torque of src/uav_model.py lines 97 to 111; the parameter Cm
stands for the value of torque_coefficient(Dp, Hp, Bp). -/
def propeller_torque (Cm pho Dp N : ℚ) : ℚ := pho * Dp ^ 5 * Cm * (N / 60) ^ 2

/-- The tuple returned by calculate_hover_mode (without the two None payload
fields), in the order of src/uav_model.py line 395. -/
structure HoverResult where
  T : ℚ
  N : ℚ
  M : ℚ
  Um : ℚ
  Im : ℚ
  sigma : ℚ
  Ue : ℚ
  Ie : ℚ
  Ib : ℚ
  t_hover : ℚ
  eta : ℚ
deriving DecidableEq, Repr

/-- calculate_hover_mode of src/uav_model.py lines 295 to 395: a closed form
forward substitution chain with no root finding and no raise statement, hence
a total function. The parameter sqrtFn stands for the numpy square root used
by propeller_speed (line 126), and Ct, Cm, piv for the transcendental
propeller coefficients and pi; every other step is exact rational
arithmetic in the order of the source. -/
def calculate_hover_mode (sqrtFn : ℚ → ℚ) (piv Ct Cm : ℚ)
    (pho G Dp Kv0 Um0 Im0 Rm nr Re Ub Cb Cmin Rb Icontrol : ℚ) : HoverResult :=
  let T := G / nr
  let N := 60 * sqrtFn (T / (pho * Dp ^ 4 * Ct))
  let M := propeller_torque Cm pho Dp N
  let Um := motor_voltage Kv0 Um0 Im0 Rm M N
  let Im := motor_current Kv0 Um0 Im0 Rm M
  let sigma := duty_cycle_limited Re Um Im Ub
  let Ie := esc_current sigma Im
  let Ue := esc_voltage Ub Ie Rb
  let Ib := battery_current nr Ie Icontrol
  let t_hover := battery_endurance Ib Cb Cmin
  let eta := system_efficiency piv nr M N Ub Ib
  ⟨T, N, M, Um, Im, sigma, Ue, Ie, Ib, t_hover, eta⟩

/-- Outcome of the scipy fsolve call: the root components in the
order (Um, Im, M, N) together with the integer status flag ier, which equals
1 exactly when the solver converged. fsolve is a library routine outside
this repository,
so its outcome is an input of the translated solver modes. -/
structure FsolveOut where
  Um : ℚ
  Im : ℚ
  M : ℚ
  N : ℚ
  ier : ℤ
deriving DecidableEq, Repr

/-- The tuple returned by calculate_max_thrust_mode (without the two None
payload fields), in the order of src/uav_model.py line 481. -/
structure ThrustResult where
  T : ℚ
  N : ℚ
  M : ℚ
  Um : ℚ
  Im : ℚ
  sigma : ℚ
  Ue : ℚ
  Ie : ℚ
  Ib : ℚ
  t_hover : ℚ
  eta : ℚ
deriving DecidableEq, Repr

/-- The tuple returned by calculate_max_payload_mode in the order of
src/uav_model.py line 579; the field cos_pitch holds the argument handed to
arccos on line 543, so the returned max_pitch is the arccos of this field. -/
structure PayloadResult where
  T : ℚ
  N : ℚ
  M : ℚ
  Um : ℚ
  Im : ℚ
  sigma : ℚ
  Ue : ℚ
  Ie : ℚ
  Ib : ℚ
  t_hover : ℚ
  eta : ℚ
  max_payload : ℚ
  cos_pitch : ℚ
deriving DecidableEq, Repr

/-- calculate_max_thrust_mode of src/uav_model.py lines 398 to 481: the root
and status of the fsolve call on line 420 arrive in sol; when ier differs
from 1 the function raises, otherwise the solved tuple is propagated through
the derived outputs in source order, with duty cycle fixed at 1. -/
def calculate_max_thrust_mode (sol : FsolveOut) (piv Ct : ℚ)
    (pho Dp nr Re Ub Cb Cmin Rb Icontrol : ℚ) : Except String ThrustResult :=
  let max_duty : ℚ := 1
  let Um := sol.Um
  let Im := sol.Im
  let M := sol.M
  let N := sol.N
  if sol.ier ≠ 1 then
    Except.error ("Solver: fsolve did not find a solution")
  else
    let Ie := esc_current max_duty Im
    let Ib := battery_current nr Ie Icontrol
    let Ue := esc_voltage Ub Ib Rb
    let eta := system_efficiency piv nr M N Ub Ib
    let T := propeller_thrust Ct pho Dp N
    let t_hover := battery_endurance Ib Cb Cmin
    Except.ok ⟨T, N, M, Um, Im, max_duty, Ue, Ie, Ib, t_hover, eta⟩

/-- calculate_max_payload_mode of src/uav_model.py lines 484 to 579: the root
and status of the fsolve call on line 505 arrive in sol; when ier differs
from 1 the function raises, otherwise thrust, payload, pitch argument and the
electrical outputs are derived in source order with the duty cycle fixed at
the safe_duty_cycle target. A negative payload is reset to zero (lines 533 to
534) and a pitch cosine outside the closed interval from -1 to 1 is replaced
by 1 (lines 541 to 542). -/
def calculate_max_payload_mode (sol : FsolveOut) (piv Ct : ℚ)
    (pho G Dp nr Re Ub Cb Cmin Rb Icontrol safe_duty_cycle : ℚ) :
    Except String PayloadResult :=
  let target_duty := safe_duty_cycle
  let Um := sol.Um
  let Im := sol.Im
  let M := sol.M
  let N := sol.N
  if sol.ier ≠ 1 then
    Except.error ("Solver: fsolve did not find a solution")
  else
    let T := propeller_thrust Ct pho Dp N
    let max_payload0 := (T * nr - G) / gravQ
    let max_payload := if max_payload0 < 0 then 0 else max_payload0
    let cos_pitch0 := G / (T * nr)
    let cos_pitch := if cos_pitch0 > 1 ∨ cos_pitch0 < -1 then 1 else cos_pitch0
    let Ie := esc_current target_duty Im
    let Ue := esc_voltage Ub Ie Rb
    let Ib := battery_current nr Ie Icontrol
    let t_hover := battery_endurance Ib Cb Cmin
    let eta := system_efficiency piv nr M N Ub Ib
    Except.ok ⟨T, N, M, Um, Im, target_duty, Ue, Ie, Ib, t_hover, eta, max_payload, cos_pitch⟩

/-- Specification side definition, following the words of the spec for the
payload mode pitch computation: clamp the cosine argument into the closed
interval from -1 to 1. Stated only for comparison with the source computation,
which instead replaces any out of range value by 1. -/
def spec_clamp (x : ℚ) : ℚ := max (-1) (min 1 x)

/-- Projection reading the pitch cosine field out of a payload mode outcome. -/
def payloadCosPitch (r : Except String PayloadResult) : ℚ :=
  match r with
  | Except.ok v => v.cos_pitch
  | Except.error _ => 0

/-- Projection reading the thrust field out of a payload mode outcome. -/
def payloadT (r : Except String PayloadResult) : ℚ :=
  match r with
  | Except.ok v => v.T
  | Except.error _ => 0

/-- Projection reading the payload field out of a payload mode outcome. -/
def payloadMaxPayload (r : Except String PayloadResult) : ℚ :=
  match r with
  | Except.ok v => v.max_payload
  | Except.error _ => 0

/-- The max_payload column written by UAVTradespacer.generate_tradespace
(src/uav_tradespace.py line 246): the payload mode output, already a mass in
kilograms, is divided once more by 9.81 before being stored in the table. -/
def table_max_payload (uav_max_payload : ℚ) : ℚ := uav_max_payload / (981 / 100)

/- ---------------------------------------------------------------- -/
/- Helper lemmas -/
/- ---------------------------------------------------------------- -/

/-- Rewriting the source pattern of a guarded reset to zero as a maximum. -/
theorem ite_lt_zero_eq_max (x : ℚ) : (if x < 0 then 0 else x) = max 0 x := by
  split_ifs with h
  · exact (max_eq_left h.le).symm
  · exact (max_eq_right (not_lt.1 h)).symm

/-- Unfolding the maximum thrust mode at a converged solver outcome. -/
theorem calculate_max_thrust_mode_ok (sol : FsolveOut) (piv Ct : ℚ)
    (pho Dp nr Re Ub Cb Cmin Rb Ic : ℚ) (h : sol.ier = 1) :
    calculate_max_thrust_mode sol piv Ct pho Dp nr Re Ub Cb Cmin Rb Ic =
      Except.ok ⟨propeller_thrust Ct pho Dp sol.N, sol.N, sol.M, sol.Um, sol.Im, 1,
        esc_voltage Ub (battery_current nr (esc_current 1 sol.Im) Ic) Rb,
        esc_current 1 sol.Im,
        battery_current nr (esc_current 1 sol.Im) Ic,
        battery_endurance (battery_current nr (esc_current 1 sol.Im) Ic) Cb Cmin,
        system_efficiency piv nr sol.M sol.N Ub
          (battery_current nr (esc_current 1 sol.Im) Ic)⟩ := by
  rw [calculate_max_thrust_mode.eq_def, h]
  simp

/-- Unfolding the maximum thrust mode at a failed solver outcome. -/
theorem calculate_max_thrust_mode_err (sol : FsolveOut) (piv Ct : ℚ)
    (pho Dp nr Re Ub Cb Cmin Rb Ic : ℚ) (h : sol.ier ≠ 1) :
    calculate_max_thrust_mode sol piv Ct pho Dp nr Re Ub Cb Cmin Rb Ic =
      Except.error ("Solver: fsolve did not find a solution") := by
  rw [calculate_max_thrust_mode.eq_def, if_pos h]

/-- Unfolding the maximum payload mode at a converged solver outcome. -/
theorem calculate_max_payload_mode_ok (sol : FsolveOut) (piv Ct : ℚ)
    (pho G Dp nr Re Ub Cb Cmin Rb Ic sdc : ℚ) (h : sol.ier = 1) :
    calculate_max_payload_mode sol piv Ct pho G Dp nr Re Ub Cb Cmin Rb Ic sdc =
      Except.ok ⟨propeller_thrust Ct pho Dp sol.N, sol.N, sol.M, sol.Um, sol.Im, sdc,
        esc_voltage Ub (esc_current sdc sol.Im) Rb,
        esc_current sdc sol.Im,
        battery_current nr (esc_current sdc sol.Im) Ic,
        battery_endurance (battery_current nr (esc_current sdc sol.Im) Ic) Cb Cmin,
        system_efficiency piv nr sol.M sol.N Ub
          (battery_current nr (esc_current sdc sol.Im) Ic),
        (if (propeller_thrust Ct pho Dp sol.N * nr - G) / gravQ < 0 then 0
          else (propeller_thrust Ct pho Dp sol.N * nr - G) / gravQ),
        (if G / (propeller_thrust Ct pho Dp sol.N * nr) > 1 ∨
            G / (propeller_thrust Ct pho Dp sol.N * nr) < -1 then 1
          else G / (propeller_thrust Ct pho Dp sol.N * nr))⟩ := by
  rw [calculate_max_payload_mode.eq_def, h]
  simp

/-- Unfolding the maximum payload mode at a failed solver outcome. -/
theorem calculate_max_payload_mode_err (sol : FsolveOut) (piv Ct : ℚ)
    (pho G Dp nr Re Ub Cb Cmin Rb Ic sdc : ℚ) (h : sol.ier ≠ 1) :
    calculate_max_payload_mode sol piv Ct pho G Dp nr Re Ub Cb Cmin Rb Ic sdc =
      Except.error ("Solver: fsolve did not find a solution") := by
  rw [calculate_max_payload_mode.eq_def, if_pos h]

/-- Sum of the weights after a dictionary assignment: the new weight replaces
the weight previously stored under the key, if any. -/
theorem sumWeights_setItem (l : List (String × PerfItem)) (name : String) (item : PerfItem) :
    sumWeights (setItem l name item) = sumWeights l - oldWeight l name + item.weight := by
  induction l with
  | nil => simp [setItem, oldWeight, sumWeights]
  | cons hd tl ih =>
    obtain ⟨k, v⟩ := hd
    by_cases hk : k = name
    · simp [setItem, oldWeight, hk, sumWeights]
      ring
    · simp only [setItem, oldWeight, hk, if_false, sumWeights, List.map_cons, List.sum_cons]
      simp only [sumWeights] at ih
      rw [ih]
      ring

/-- Membership after a dictionary assignment: every stored pair is the new one
or was already present. -/
theorem mem_setItem {l : List (String × PerfItem)} {name : String} {item : PerfItem}
    {p : String × PerfItem} (hp : p ∈ setItem l name item) : p = (name, item) ∨ p ∈ l := by
  induction l with
  | nil =>
    simp [setItem] at hp
    exact Or.inl hp
  | cons hd tl ih =>
    obtain ⟨k, v⟩ := hd
    by_cases hk : k = name
    · simp [setItem, hk] at hp
      rcases hp with h | h
      · exact Or.inl (by simp [h])
      · exact Or.inr (List.mem_cons_of_mem _ h)
    · simp [setItem, hk] at hp
      rcases hp with h | h
      · exact Or.inr (by simp [h])
      · rcases ih h with h2 | h2
        · exact Or.inl h2
        · exact Or.inr (List.mem_cons_of_mem _ h2)

/-- The previously stored weight is nonnegative whenever all stored weights
are. -/
theorem oldWeight_nonneg {l : List (String × PerfItem)}
    (h : ∀ p ∈ l, 0 ≤ p.2.weight) (name : String) : 0 ≤ oldWeight l name := by
  induction l with
  | nil => simp [oldWeight]
  | cons hd tl ih =>
    obtain ⟨k, v⟩ := hd
    by_cases hk : k = name
    · simpa [oldWeight, hk] using h (k, v) (List.mem_cons_self _ _)
    · simp only [oldWeight, hk, if_false]
      exact ih (fun p hp => h p (List.mem_cons_of_mem _ hp))

/- ---------------------------------------------------------------- -/
/- Claim theorems -/
/- ---------------------------------------------------------------- -/

/-- Claim C1: with the restrictive policy, calculate_mau processes the
attributes in registration order and a zero SAU for the current attribute
resets the running MAU of the row to zero before the weighted term of that
attribute is added; the value after the zero attribute is therefore exactly
the MAU of the remaining suffix, so later attributes with nonzero SAU
contribute again. The second conjunct exhibits a row whose first attribute has
zero SAU and whose final MAU is positive. -/
theorem calculate_mau_restrictive_reset_then_recover (pre post : List (ℚ × ℚ)) (w : ℚ) :
    calculate_mau true (pre ++ (w, 0) :: post) = calculate_mau true post ∧
    calculate_mau true [(1/2, 0), (1/2, 1)] = 1/2 := by
  constructor
  · unfold calculate_mau
    rw [List.foldl_append, List.foldl_cons]
    norm_num [mau_step]
  · norm_num [calculate_mau, mau_step]

/-- Claim C2 (evaluation at the failing input): on a fresh two row table the
first row has mau = 0 and is dominated by the second row (equal price,
strictly larger mau), yet detect_pareto leaves its pareto flag unwritten
(none) instead of storing false, because the source assigns False only to the
iterrows copy and continues before the dataframe write; the nonzero row is
marked normally. The claim requires the flag of the first row to be false. -/
theorem detect_pareto_zero_mau_flag_not_written :
    detect_pareto [⟨1, 0, none⟩, ⟨1, 5, none⟩] = [⟨1, 0, none⟩, ⟨1, 5, some true⟩] := by
  decide

/-- The combination list always ends with the all coefficients high row, the
itertools.product order putting the largest coefficient last in every
position. -/
theorem coeff_combinations_concat (n : Nat) :
    ∃ init : List (List ℚ),
      coeff_combinations n = init ++ [List.replicate n ((1:ℚ) + 1/2)] := by
  induction n with
  | zero => exact ⟨[], rfl⟩
  | succ n ih =>
    obtain ⟨init, hinit⟩ := ih
    refine ⟨(coeff_combinations n).map (fun t => ((1:ℚ) - 1/2) :: t) ++
        ((coeff_combinations n).map (fun t => (1:ℚ) :: t) ++
          init.map (fun t => ((1:ℚ) + 1/2) :: t)), ?_⟩
    simp only [coeff_combinations, perturb_coeffs, List.flatMap_cons, List.flatMap_nil,
      List.append_nil]
    rw [hinit, List.map_append]
    simp [List.replicate_succ, List.append_assoc]

/-- Elementwise multiplication by a constant coefficient row is a map. -/
theorem apply_coeffs_replicate (c : ℚ) (ws : List ℚ) :
    apply_coeffs (List.replicate ws.length c) ws = ws.map (fun w => c * w) := by
  induction ws with
  | nil => rfl
  | cons w ws ih =>
    simp only [List.length_cons, List.replicate_succ, apply_coeffs, List.zipWith_cons_cons,
      List.map_cons]
    simp only [apply_coeffs] at ih
    rw [ih]

/-- Scaling a list scales its sum. -/
theorem sum_map_const_mul (c : ℚ) (ws : List ℚ) :
    (ws.map (fun w => c * w)).sum = c * ws.sum := by
  induction ws with
  | nil => simp
  | cons w ws ih => simp [ih, mul_add]

/-- Dividing scaled entries by the scaled divisor cancels the scale factor. -/
theorem map_div_scaled (c S : ℚ) (hc : c ≠ 0) (ws : List ℚ) :
    (ws.map (fun w => c * w)).map (fun x => x / (c * S)) = ws.map (fun w => w / S) := by
  induction ws with
  | nil => rfl
  | cons w ws ih =>
    simp only [List.map_cons] at ih ⊢
    rw [mul_div_mul_left w S hc, ih]

/-- Normalizing a uniformly scaled weight row divides the original weights by
their own sum. -/
theorem normalize_row_scaled (c : ℚ) (hc : c ≠ 0) (ws : List ℚ) :
    normalize_row (ws.map (fun w => c * w)) = ws.map (fun w => w / ws.sum) := by
  unfold normalize_row
  rw [sum_map_const_mul, map_div_scaled c ws.sum hc]

/-- The sweep leaves each weight equal to the baseline weight divided by the
baseline sum. -/
theorem sweep_final_weights_formula (ws : List ℚ) :
    sweep_final_weights ws = ws.map (fun w => w / ws.sum) := by
  obtain ⟨init, hinit⟩ := coeff_combinations_concat ws.length
  unfold sweep_final_weights
  rw [hinit, List.foldl_append]
  show normalize_row (apply_coeffs (List.replicate ws.length ((1:ℚ) + 1/2)) ws) = _
  rw [apply_coeffs_replicate]
  exact normalize_row_scaled ((1:ℚ) + 1/2) (by norm_num) ws

/-- Claim C3 (amended): after the sensitivity sweep each attribute weight
equals its baseline weight divided by the sum of all baseline weights, the
value from the last perturbation combination, which the shallow dict copy
restore fails to undo; the final utility columns are then regenerated with
those weights. The weights (and hence the regenerated columns) coincide with
the un-perturbed baseline exactly when the baseline weights sum to one. -/
theorem sweep_restores_weights_iff_sum_one (ws : List ℚ) :
    sweep_final_weights ws = ws.map (fun w => w / ws.sum) ∧
    (ws.sum = 1 → sweep_final_weights ws = ws) := by
  refine ⟨sweep_final_weights_formula ws, fun h1 => ?_⟩
  rw [sweep_final_weights_formula ws, h1]
  simp

/-- Claim C3 witness: a baseline whose weights sum to one is restored by the
sweep. -/
theorem sweep_restores_weights_iff_sum_one_witness :
    sweep_final_weights [1/2, 1/2] = [1/2, 1/2] :=
  (sweep_restores_weights_iff_sum_one [1/2, 1/2]).2 (by norm_num)

/-- Claim C3 counterexample: for baseline weights 0.2 and 0.2 (sum 0.4, a
legal registration), the weights after the sweep are 0.5 and 0.5, not the
values held before the sweep began. -/
theorem sweep_weight_restore_counterexample :
    sweep_final_weights [1/5, 1/5] ≠ [1/5, 1/5] := by
  rw [sweep_final_weights_formula]
  norm_num

/-- Claim C4: starting from a registry whose stored weights are nonnegative
and sum to at most one, every successful call of add_performance_variable
leaves a registry whose weights again sum to at most one (covering both fresh
names and overwrites), and any call whose weight would push the sum above one
returns an error, the source raising before the single mutating assignment and
hence leaving the registry unchanged. -/
theorem add_performance_variable_weight_sum_invariant
    (items : List (String × PerfItem)) (name : String) (mn mx : ℚ) (u : String) (w : ℚ)
    (hpos : ∀ p ∈ items, 0 ≤ p.2.weight) :
    (∀ s, add_performance_variable items name mn mx u w = Except.ok s →
        sumWeights s ≤ 1 ∧ ∀ p ∈ s, 0 ≤ p.2.weight) ∧
    (1 < sumWeights items + w →
        ∃ e, add_performance_variable items name mn mx u w = Except.error e) := by
  constructor
  · intro s hs
    unfold add_performance_variable at hs
    split_ifs at hs with h1 h2 h3
    simp only [Except.ok.injEq] at hs
    subst hs
    push_neg at h2 h3
    constructor
    · rw [sumWeights_setItem]
      have hold := oldWeight_nonneg hpos name
      linarith
    · intro p hp
      rcases mem_setItem hp with h | h
      · rw [h]
        exact h2.1
      · exact hpos p h
  · intro hgt
    unfold add_performance_variable
    split_ifs with h1 h2
    all_goals exact ⟨_, rfl⟩

/-- Claim C4 witness: registering a weight of one half into an empty registry
succeeds and the resulting weight sum stays at most one. -/
theorem add_performance_variable_weight_sum_invariant_witness :
    sumWeights [("a", ⟨0, 1, "u", 1/2⟩)] ≤ 1 := by
  have h := add_performance_variable_weight_sum_invariant [] "a" 0 1 "u" (1/2) (by simp)
  exact (h.1 [("a", ⟨0, 1, "u", 1/2⟩)]
    (by norm_num [add_performance_variable, sumWeights, setItem])).1

/-- Claim C9 (amended): registration detects inverted bounds, raising a
configuration error whenever max_value is strictly less than min_value; bounds
with max_value equal to min_value pass the check and are accepted, since the
source only compares with strict less than. -/
theorem add_performance_variable_rejects_inverted_bounds
    (items : List (String × PerfItem)) (name : String) (mn mx : ℚ) (u : String) (w : ℚ)
    (h : mx < mn) :
    ∃ e, add_performance_variable items name mn mx u w = Except.error e := by
  refine ⟨"max value is less than the min value", ?_⟩
  unfold add_performance_variable
  rw [if_pos h]

/-- Claim C9 witness: bounds 2 down to 1 are rejected. -/
theorem add_performance_variable_rejects_inverted_bounds_witness :
    isErr (add_performance_variable [] "x" 2 1 "u" 0) = true := by
  obtain ⟨e, he⟩ :=
    add_performance_variable_rejects_inverted_bounds [] "x" 2 1 "u" 0 (by norm_num)
  rw [he]
  rfl

/-- Claim C9 counterexample: an attribute with max_value equal to min_value is
accepted by add_performance_variable, not rejected, because the bounds check
only fires on a strictly smaller max_value. -/
theorem add_performance_variable_equal_bounds_accepted :
    isErr (add_performance_variable [] "x" 5 5 "u" (1/2)) = false := by
  norm_num [add_performance_variable, sumWeights, isErr]

/-- Claim C5 (amended): for an attribute whose bounds are strict, with
max_value strictly greater than min_value, the SAU of a row at the lower bound
is exactly 0, at the upper bound exactly 1, the SAU is monotone non decreasing
in the raw value, and under either clipping policy a successful calculate_sau
pass fills the column with exactly these values. -/
theorem calculate_sau_boundary_and_monotone (item : PerfItem)
    (hlt : item.min_value < item.max_value) :
    sauValue item item.min_value = 0 ∧
    sauValue item item.max_value = 1 ∧
    (∀ v w : ℚ, v ≤ w → sauValue item v ≤ sauValue item w) ∧
    (∀ (cmax cmin : Bool) (col out : List ℚ),
        calculate_sau_column cmax cmin item col = Except.ok out →
        out = col.map (sauValue item)) := by
  have hd : 0 < item.max_value - item.min_value := by linarith
  refine ⟨?_, ?_, ?_, ?_⟩
  · unfold sauValue
    rw [if_neg (not_lt.2 hlt.le), if_neg (lt_irrefl _), sub_self, zero_div]
  · unfold sauValue
    rw [if_neg (lt_irrefl _), if_neg (not_lt.2 hlt.le), div_self (ne_of_gt hd)]
  · intro v w hvw
    unfold sauValue
    by_cases hv1 : v > item.max_value
    · have hw1 : w > item.max_value := lt_of_lt_of_le hv1 hvw
      rw [if_pos hv1, if_pos hw1]
    · rw [if_neg hv1]
      by_cases hv2 : v < item.min_value
      · rw [if_pos hv2]
        by_cases hw1 : w > item.max_value
        · rw [if_pos hw1]
          norm_num
        · rw [if_neg hw1]
          by_cases hw2 : w < item.min_value
          · rw [if_pos hw2]
          · rw [if_neg hw2]
            push_neg at hw2
            exact div_nonneg (by linarith) hd.le
      · rw [if_neg hv2]
        push_neg at hv1 hv2
        by_cases hw1 : w > item.max_value
        · rw [if_pos hw1, div_le_one hd]
          linarith
        · have hw2 : ¬ w < item.min_value := by
            push_neg
            linarith
          rw [if_neg hw1, if_neg hw2, div_le_div_iff_of_pos_right hd]
          linarith
  · intro cmax cmin col out hok
    unfold calculate_sau_column at hok
    split_ifs at hok
    all_goals simp only [Except.ok.injEq] at hok
    all_goals exact hok.symm

/-- Claim C5 witness: for the attribute with bounds 0 and 2, the boundary
values, one monotonicity instance, and a successful clipping pass on the
column holding both bounds. -/
theorem calculate_sau_boundary_and_monotone_witness :
    sauValue ⟨0, 2, "u", 1/2⟩ 0 = 0 ∧
    sauValue ⟨0, 2, "u", 1/2⟩ 2 = 1 ∧
    sauValue ⟨0, 2, "u", 1/2⟩ 1 ≤ sauValue ⟨0, 2, "u", 1/2⟩ 2 ∧
    [0, 1] = [0, 2].map (sauValue ⟨0, 2, "u", 1/2⟩) := by
  have h := calculate_sau_boundary_and_monotone ⟨0, 2, "u", 1/2⟩ (by norm_num)
  refine ⟨h.1, h.2.1, h.2.2.1 1 2 (by norm_num), ?_⟩
  exact h.2.2.2 true true [0, 2] [0, 1] (by norm_num [calculate_sau_column, sauValue])

/-- Claim C5 counterexample: the degenerate attribute with min_value equal to
max_value is accepted by registration, yet the SAU of a row whose raw value
equals max_value is not 1: the linear branch divides zero by zero, giving 0
over the rationals and NaN in the source float arithmetic, both distinct
from the claimed boundary value 1. -/
theorem calculate_sau_equal_bounds_counterexample :
    isErr (add_performance_variable [] "x" 5 5 "u" (1/2)) = false ∧
    sauValue ⟨5, 5, "u", 1/2⟩ 5 ≠ 1 := by
  constructor
  · norm_num [add_performance_variable, sumWeights, isErr]
  · norm_num [sauValue]

/-- Claim C6 (amended): in maximum payload mode the reported payload equals
max(0, (thrust times rotor count minus weight) divided by g) and is never
negative, and the arccos argument always lies in the closed interval from -1
to 1; the argument equals the clamped ratio whenever the ratio is at least -1
(which covers ratios above 1, replaced by 1), but a ratio below -1 is replaced
by 1 rather than clamped to -1. -/
theorem max_payload_mode_payload_and_pitch (sol : FsolveOut)
    (piv Ct pho G Dp nr Re Ub Cb Cmin Rb Ic sdc : ℚ) (r : PayloadResult)
    (hok : calculate_max_payload_mode sol piv Ct pho G Dp nr Re Ub Cb Cmin Rb Ic sdc =
      Except.ok r) :
    r.max_payload = max 0 ((r.T * nr - G) / gravQ) ∧
    (-1 ≤ r.cos_pitch ∧ r.cos_pitch ≤ 1) ∧
    (-1 ≤ G / (r.T * nr) → r.cos_pitch = spec_clamp (G / (r.T * nr))) := by
  have hier : sol.ier = 1 := by
    by_contra hne
    rw [calculate_max_payload_mode_err sol piv Ct pho G Dp nr Re Ub Cb Cmin Rb Ic sdc hne] at hok
    exact Except.noConfusion hok
  rw [calculate_max_payload_mode_ok sol piv Ct pho G Dp nr Re Ub Cb Cmin Rb Ic sdc hier] at hok
  simp only [Except.ok.injEq] at hok
  subst hok
  refine ⟨ite_lt_zero_eq_max _, ?_, ?_⟩
  · dsimp only
    split_ifs with h
    · norm_num
    · push_neg at h
      exact ⟨h.2, h.1⟩
  · intro hge
    dsimp only at hge ⊢
    split_ifs with h
    · rcases h with h | h
      · rw [spec_clamp, min_eq_left h.le, max_eq_right (by norm_num)]
      · exact absurd hge (not_le.2 h)
    · push_neg at h
      rw [spec_clamp, min_eq_right h.1, max_eq_right h.2]

/-- Claim C6 witness: a converged configuration with an in range ratio, where
the stored pitch cosine equals the clamped ratio. -/
theorem max_payload_mode_payload_and_pitch_witness :
    payloadCosPitch (calculate_max_payload_mode ⟨1, 1, 1, 60, 1⟩ 0 1 1 1 1 2 1 1 1 1 1 1 (7/10)) =
      spec_clamp (1 /
        (payloadT (calculate_max_payload_mode ⟨1, 1, 1, 60, 1⟩ 0 1 1 1 1 2 1 1 1 1 1 1 (7/10)) * 2)) := by
  have hok := calculate_max_payload_mode_ok ⟨1, 1, 1, 60, 1⟩ 0 1 1 1 1 2 1 1 1 1 1 1 (7/10) rfl
  have h := max_payload_mode_payload_and_pitch ⟨1, 1, 1, 60, 1⟩ 0 1 1 1 1 2 1 1 1 1 1 1 (7/10) _ hok
  rw [hok]
  simpa [payloadCosPitch, payloadT] using h.2.2 (by norm_num [propeller_thrust])

/-- Claim C6 counterexample: with a negative thrust coefficient (a propeller
registered with negative pitch) the solved thrust is -1, the ratio
weight/(thrust times rotors) is -2, and the source stores the arccos argument
1, while the clamp prescribed by the claim yields -1; the resulting pitch
angles arccos 1 = 0 and arccos (-1) = pi differ. -/
theorem max_payload_mode_clamp_counterexample :
    payloadCosPitch
        (calculate_max_payload_mode ⟨0, 0, 0, 60, 1⟩ 0 (-1) 1 2 1 1 1 1 1 1 1 1 (7/10)) = 1 ∧
    spec_clamp (2 /
        (payloadT (calculate_max_payload_mode ⟨0, 0, 0, 60, 1⟩ 0 (-1) 1 2 1 1 1 1 1 1 1 1 (7/10)) * 1)) = -1 ∧
    Real.arccos 1 ≠ Real.arccos (-1) := by
  have hok := calculate_max_payload_mode_ok ⟨0, 0, 0, 60, 1⟩ 0 (-1) 1 2 1 1 1 1 1 1 1 1 (7/10) rfl
  refine ⟨?_, ?_, ?_⟩
  · rw [hok]
    norm_num [payloadCosPitch, propeller_thrust]
  · rw [hok]
    norm_num [payloadT, propeller_thrust, spec_clamp, min_def, max_def]
  · rw [Real.arccos_one, Real.arccos_neg_one]
    intro hc
    exact Real.pi_ne_zero hc.symm

/-- Claim C7: hover mode is a total closed form forward substitution with no
root finding, its thrust per rotor is the total weight divided by the rotor
count for every configuration, and in the documented scenario of mass 1.47 kg
and 4 rotors the hover thrust per rotor is 1.47 times 9.80665 divided by 4. -/
theorem calculate_hover_mode_thrust (sqrtFn : ℚ → ℚ)
    (piv Ct Cm pho G Dp Kv0 Um0 Im0 Rm nr Re Ub Cb Cmin Rb Icontrol : ℚ) :
    (calculate_hover_mode sqrtFn piv Ct Cm pho G Dp Kv0 Um0 Im0 Rm nr Re Ub Cb Cmin
        Rb Icontrol).T = G / nr ∧
    (calculate_hover_mode sqrtFn piv Ct Cm pho (147/100 * gravQ) Dp Kv0 Um0 Im0 Rm 4 Re Ub Cb
        Cmin Rb Icontrol).T = 147/100 * gravQ / 4 :=
  ⟨rfl, rfl⟩

/-- Claim C8: in the maximum thrust and maximum payload modes the computation
returns an error exactly when the solver status differs from 1, and on
convergence it returns the solved tuple (Um, Im, M, N) with the derived
outputs computed from it, never default or leftover values. -/
theorem solver_status_gates_mode_output (sol : FsolveOut)
    (piv Ct pho G Dp nr Re Ub Cb Cmin Rb Ic sdc : ℚ) :
    (isErr (calculate_max_thrust_mode sol piv Ct pho Dp nr Re Ub Cb Cmin Rb Ic) = true ↔
      sol.ier ≠ 1) ∧
    (isErr (calculate_max_payload_mode sol piv Ct pho G Dp nr Re Ub Cb Cmin Rb Ic sdc) = true ↔
      sol.ier ≠ 1) ∧
    (sol.ier = 1 →
      calculate_max_thrust_mode sol piv Ct pho Dp nr Re Ub Cb Cmin Rb Ic =
        Except.ok ⟨propeller_thrust Ct pho Dp sol.N, sol.N, sol.M, sol.Um, sol.Im, 1,
          esc_voltage Ub (battery_current nr (esc_current 1 sol.Im) Ic) Rb,
          esc_current 1 sol.Im,
          battery_current nr (esc_current 1 sol.Im) Ic,
          battery_endurance (battery_current nr (esc_current 1 sol.Im) Ic) Cb Cmin,
          system_efficiency piv nr sol.M sol.N Ub
            (battery_current nr (esc_current 1 sol.Im) Ic)⟩ ∧
      calculate_max_payload_mode sol piv Ct pho G Dp nr Re Ub Cb Cmin Rb Ic sdc =
        Except.ok ⟨propeller_thrust Ct pho Dp sol.N, sol.N, sol.M, sol.Um, sol.Im, sdc,
          esc_voltage Ub (esc_current sdc sol.Im) Rb,
          esc_current sdc sol.Im,
          battery_current nr (esc_current sdc sol.Im) Ic,
          battery_endurance (battery_current nr (esc_current sdc sol.Im) Ic) Cb Cmin,
          system_efficiency piv nr sol.M sol.N Ub
            (battery_current nr (esc_current sdc sol.Im) Ic),
          (if (propeller_thrust Ct pho Dp sol.N * nr - G) / gravQ < 0 then 0
            else (propeller_thrust Ct pho Dp sol.N * nr - G) / gravQ),
          (if G / (propeller_thrust Ct pho Dp sol.N * nr) > 1 ∨
              G / (propeller_thrust Ct pho Dp sol.N * nr) < -1 then 1
            else G / (propeller_thrust Ct pho Dp sol.N * nr))⟩) := by
  by_cases h : sol.ier = 1
  · refine ⟨?_, ?_, fun _ =>
      ⟨calculate_max_thrust_mode_ok sol piv Ct pho Dp nr Re Ub Cb Cmin Rb Ic h,
        calculate_max_payload_mode_ok sol piv Ct pho G Dp nr Re Ub Cb Cmin Rb Ic sdc h⟩⟩
    · rw [calculate_max_thrust_mode_ok sol piv Ct pho Dp nr Re Ub Cb Cmin Rb Ic h]
      simp [isErr, h]
    · rw [calculate_max_payload_mode_ok sol piv Ct pho G Dp nr Re Ub Cb Cmin Rb Ic sdc h]
      simp [isErr, h]
  · refine ⟨?_, ?_, fun h1 => absurd h1 h⟩
    · rw [calculate_max_thrust_mode_err sol piv Ct pho Dp nr Re Ub Cb Cmin Rb Ic h]
      simp [isErr, h]
    · rw [calculate_max_payload_mode_err sol piv Ct pho G Dp nr Re Ub Cb Cmin Rb Ic sdc h]
      simp [isErr, h]

/-- Claim C8 witness: a converged solver outcome yields the solved tuple in
the maximum thrust output. -/
theorem solver_status_gates_mode_output_witness :
    calculate_max_thrust_mode ⟨1, 1, 1, 60, 1⟩ 0 1 1 1 2 1 1 1 1 1 1 =
      Except.ok ⟨propeller_thrust 1 1 1 60, 60, 1, 1, 1, 1,
        esc_voltage 1 (battery_current 2 (esc_current 1 1) 1) 1,
        esc_current 1 1,
        battery_current 2 (esc_current 1 1) 1,
        battery_endurance (battery_current 2 (esc_current 1 1) 1) 1 1,
        system_efficiency 0 2 1 60 1 (battery_current 2 (esc_current 1 1) 1)⟩ :=
  ((solver_status_gates_mode_output ⟨1, 1, 1, 60, 1⟩ 0 1 1 1 1 2 1 1 1 1 1 1 (7/10)).2.2 rfl).1

/-- Claim C10: the max_payload column stored in the public tradespace table is
the payload mode result, itself max(0, (thrust times rotors minus weight)
divided by 9.80665) and already a mass in kilograms, divided a second time by
9.81. -/
theorem tradespace_max_payload_extra_division (sol : FsolveOut)
    (piv Ct pho G Dp nr Re Ub Cb Cmin Rb Ic sdc : ℚ) (r : PayloadResult)
    (hok : calculate_max_payload_mode sol piv Ct pho G Dp nr Re Ub Cb Cmin Rb Ic sdc =
      Except.ok r) :
    table_max_payload r.max_payload = max 0 ((r.T * nr - G) / gravQ) / (981/100) := by
  have hier : sol.ier = 1 := by
    by_contra hne
    rw [calculate_max_payload_mode_err sol piv Ct pho G Dp nr Re Ub Cb Cmin Rb Ic sdc hne] at hok
    exact Except.noConfusion hok
  rw [calculate_max_payload_mode_ok sol piv Ct pho G Dp nr Re Ub Cb Cmin Rb Ic sdc hier] at hok
  simp only [Except.ok.injEq] at hok
  subst hok
  dsimp only
  unfold table_max_payload
  rw [ite_lt_zero_eq_max]

/-- Claim C10 witness: in a converged concrete configuration the stored table
value is the clamped payload mass divided once more by 9.81. -/
theorem tradespace_max_payload_extra_division_witness :
    table_max_payload
        (payloadMaxPayload
          (calculate_max_payload_mode ⟨1, 1, 1, 60, 1⟩ 0 1 1 1 1 2 1 1 1 1 1 1 (7/10))) =
      max 0
        ((payloadT (calculate_max_payload_mode ⟨1, 1, 1, 60, 1⟩ 0 1 1 1 1 2 1 1 1 1 1 1 (7/10)) *
          2 - 1) / gravQ) / (981/100) := by
  have hok := calculate_max_payload_mode_ok ⟨1, 1, 1, 60, 1⟩ 0 1 1 1 1 2 1 1 1 1 1 1 (7/10) rfl
  have h := tradespace_max_payload_extra_division ⟨1, 1, 1, 60, 1⟩ 0 1 1 1 1 2 1 1 1 1 1 1 (7/10) _ hok
  rw [hok]
  simpa [payloadMaxPayload, payloadT] using h
